import Mathlib

/-!
Verification of the KiranaKhata ledger state machine, embedded from
src/pages/index.tsx (operations addProduct, addCustomer, recordTransaction),
src/services/geminiService.ts (extractItemsFromImage) and the persistence
load/save effects. Numbers are modelled as exact rationals; the random id
generator and the clock are passed explicitly as arguments.
-/

namespace Kirana

/-- Product record, from src/services (types): id, name, price, category,
optional stock. -/
structure Product where
  id : String
  name : String
  price : Rat
  category : String
  stock : Option Rat := none
deriving DecidableEq, Repr

/-- TransactionType from the types file: PURCHASE or PAYMENT. -/
inductive TransactionType where
  | PURCHASE
  | PAYMENT
deriving DecidableEq, Repr

/-- Line item of the optional items field of a Transaction. -/
structure TransactionItem where
  productId : String
  name : String
  quantity : Rat
  price : Rat
deriving DecidableEq, Repr

/-- Transaction record from the types file. -/
structure Transaction where
  id : String
  customerId : String
  amount : Rat
  type : TransactionType
  description : String
  timestamp : Int
  items : Option (List TransactionItem) := none
deriving DecidableEq, Repr

/-- Customer record from the types file. -/
structure Customer where
  id : String
  name : String
  phone : String
  outstandingBalance : Rat
  lastUpdated : Int
deriving DecidableEq, Repr

/-- KiranaState aggregate from the types file. -/
structure KiranaState where
  products : List Product
  customers : List Customer
  transactions : List Transaction
deriving DecidableEq, Repr

/-- The argument of recordTransaction: a Transaction without id and
timestamp (Omit in the source). -/
structure TxInput where
  customerId : String
  amount : Rat
  type : TransactionType
  description : String
  items : Option (List TransactionItem) := none
deriving DecidableEq, Repr

/-- The argument of addProduct: a Product without id. -/
structure ProductInput where
  name : String
  price : Rat
  category : String
  stock : Option Rat := none
deriving DecidableEq, Repr

/-- The argument of addCustomer: name and phone only. -/
structure CustomerInput where
  name : String
  phone : String
deriving DecidableEq, Repr

/-- The seed state INITIAL_STATE of src/pages/index.tsx; the Date.now()
values of the seed customers are the parameter now. -/
def INITIAL_STATE (now : Int) : KiranaState :=
  { products := [
      { id := "1", name := "Basmati Rice 1kg", price := 120, category := "Grains" },
      { id := "2", name := "Tata Salt 1kg", price := 28, category := "Spices" },
      { id := "3", name := "Fortune Soyabean Oil 1L", price := 165, category := "Essentials" },
      { id := "4", name := "Aashirvaad Atta 5kg", price := 245, category := "Grains" },
      { id := "5", name := "Amul Butter 100g", price := 58, category := "Dairy" }],
    customers := [
      { id := "c1", name := "Rahul Sharma", phone := "9876543210", outstandingBalance := 1250, lastUpdated := now },
      { id := "c2", name := "Priya Verma", phone := "9123456780", outstandingBalance := 0, lastUpdated := now },
      { id := "c3", name := "Amit Gupta", phone := "9988776655", outstandingBalance := 450, lastUpdated := now }],
    transactions := [] }

/-- The Product built by addProduct from its input and the generated id. -/
def mkProduct (p : ProductInput) (freshId : String) : Product :=
  { id := freshId, name := p.name, price := p.price, category := p.category, stock := p.stock }

/-- addProduct from src/pages/index.tsx: append the new product, with a
generated id, to the product list. The random id is the argument freshId. -/
def addProduct (prev : KiranaState) (p : ProductInput) (freshId : String) : KiranaState :=
  { prev with products := prev.products ++ [mkProduct p freshId] }

/-- The Customer built by addCustomer: balance 0, lastUpdated now. -/
def mkCustomer (c : CustomerInput) (freshId : String) (now : Int) : Customer :=
  { id := freshId, name := c.name, phone := c.phone, outstandingBalance := 0, lastUpdated := now }

/-- addCustomer from src/pages/index.tsx: append the new customer with
balance 0 to the customer list. -/
def addCustomer (prev : KiranaState) (c : CustomerInput) (freshId : String) (now : Int) : KiranaState :=
  { prev with customers := prev.customers ++ [mkCustomer c freshId now] }

/-- The balance adjustment of recordTransaction: tx.amount for a PURCHASE,
-tx.amount for a PAYMENT (the ternary on line 81 of src/pages/index.tsx). -/
def adjustment (tx : TxInput) : Rat :=
  if tx.type = TransactionType.PURCHASE then tx.amount else -tx.amount

/-- The Transaction built by recordTransaction from its input, the
generated id and the current time. -/
def mkTx (tx : TxInput) (freshId : String) (now : Int) : Transaction :=
  { id := freshId, customerId := tx.customerId, amount := tx.amount,
    type := tx.type, description := tx.description, timestamp := now,
    items := tx.items }

/-- recordTransaction from src/pages/index.tsx lines 71-97: prepend the new
transaction; map over the customers, clamping the matching customer's
balance at zero and stamping lastUpdated. -/
def recordTransaction (prev : KiranaState) (tx : TxInput) (freshId : String) (now : Int) : KiranaState :=
  let newTx := mkTx tx freshId now
  let updatedCustomers := prev.customers.map fun c =>
    if c.id = tx.customerId then
      { c with outstandingBalance := max 0 (c.outstandingBalance + adjustment tx),
               lastUpdated := now }
    else c
  { prev with transactions := newTx :: prev.transactions, customers := updatedCustomers }

/-- A sequence of recordTransaction calls, each with its input, generated
id and timestamp, applied in order. -/
def applyCalls (s : KiranaState) (calls : List (TxInput × String × Int)) : KiranaState :=
  calls.foldl (fun st c => recordTransaction st c.1 c.2.1 c.2.2) s

/-- The balance produced by a sequence of adjustments when each step is
clamped at zero, as recordTransaction does. -/
def balanceClampFold (b0 : Rat) (adjs : List Rat) : Rat :=
  adjs.foldl (fun b a => max 0 (b + a)) b0

/-- JSON values at parse-tree granularity: the result of JSON.parse on the
stored blob, and the shape JSON.stringify serialises. -/
inductive Json where
  | null
  | bool (b : Bool)
  | num (q : Rat)
  | str (s : String)
  | arr (xs : List Json)
  | obj (fields : List (String × Json))

/-- Key lookup in a JSON object field list. -/
def jLookup (fields : List (String × Json)) (k : String) : Option Json :=
  (fields.find? fun kv => kv.1 = k).map fun kv => kv.2

/-- Decode every element of a JSON array; fail when any element fails. -/
def decodeList {α : Type} (dec : Json → Option α) : List Json → Option (List α)
  | [] => some []
  | x :: xs =>
    match dec x, decodeList dec xs with
    | some y, some ys => some (y :: ys)
    | _, _ => none

/-- JSON encoding of a Product: JSON.stringify drops the optional stock
field when it is undefined. -/
def encodeProduct (p : Product) : Json :=
  Json.obj ([("id", Json.str p.id), ("name", Json.str p.name),
             ("price", Json.num p.price), ("category", Json.str p.category)] ++
    (match p.stock with
     | none => []
     | some v => [("stock", Json.num v)]))

/-- JSON decoding of a Product: the JS value read back through the Product
interface. -/
def decodeProduct (j : Json) : Option Product :=
  match j with
  | Json.obj fs =>
    match jLookup fs "id", jLookup fs "name", jLookup fs "price", jLookup fs "category" with
    | some (Json.str i), some (Json.str n), some (Json.num pr), some (Json.str c) =>
      match jLookup fs "stock" with
      | none => some { id := i, name := n, price := pr, category := c, stock := none }
      | some (Json.num v) => some { id := i, name := n, price := pr, category := c, stock := some v }
      | some _ => none
    | _, _, _, _ => none
  | _ => none

/-- JSON encoding of a Customer. -/
def encodeCustomer (c : Customer) : Json :=
  Json.obj [("id", Json.str c.id), ("name", Json.str c.name),
            ("phone", Json.str c.phone),
            ("outstandingBalance", Json.num c.outstandingBalance),
            ("lastUpdated", Json.num c.lastUpdated)]

/-- JSON decoding of a Customer. -/
def decodeCustomer (j : Json) : Option Customer :=
  match j with
  | Json.obj fs =>
    match jLookup fs "id", jLookup fs "name", jLookup fs "phone",
          jLookup fs "outstandingBalance", jLookup fs "lastUpdated" with
    | some (Json.str i), some (Json.str n), some (Json.str ph),
      some (Json.num b), some (Json.num u) =>
      if u.den = 1 then
        some { id := i, name := n, phone := ph, outstandingBalance := b, lastUpdated := u.num }
      else none
    | _, _, _, _, _ => none
  | _ => none

/-- JSON encoding of a TransactionType, the string literal of the source. -/
def encodeTxType (t : TransactionType) : Json :=
  match t with
  | TransactionType.PURCHASE => Json.str "PURCHASE"
  | TransactionType.PAYMENT => Json.str "PAYMENT"

/-- JSON decoding of a TransactionType. -/
def decodeTxType (j : Json) : Option TransactionType :=
  match j with
  | Json.str "PURCHASE" => some TransactionType.PURCHASE
  | Json.str "PAYMENT" => some TransactionType.PAYMENT
  | _ => none

/-- JSON encoding of a transaction line item. -/
def encodeTxItem (it : TransactionItem) : Json :=
  Json.obj [("productId", Json.str it.productId), ("name", Json.str it.name),
            ("quantity", Json.num it.quantity), ("price", Json.num it.price)]

/-- JSON decoding of a transaction line item. -/
def decodeTxItem (j : Json) : Option TransactionItem :=
  match j with
  | Json.obj fs =>
    match jLookup fs "productId", jLookup fs "name", jLookup fs "quantity", jLookup fs "price" with
    | some (Json.str pid), some (Json.str n), some (Json.num q), some (Json.num pr) =>
      some { productId := pid, name := n, quantity := q, price := pr }
    | _, _, _, _ => none
  | _ => none

/-- JSON encoding of a Transaction; the optional items field is dropped
when undefined. -/
def encodeTransaction (t : Transaction) : Json :=
  Json.obj ([("id", Json.str t.id), ("customerId", Json.str t.customerId),
             ("amount", Json.num t.amount), ("type", encodeTxType t.type),
             ("description", Json.str t.description),
             ("timestamp", Json.num t.timestamp)] ++
    (match t.items with
     | none => []
     | some its => [("items", Json.arr (its.map encodeTxItem))]))

/-- JSON decoding of a Transaction. -/
def decodeTransaction (j : Json) : Option Transaction :=
  match j with
  | Json.obj fs =>
    match jLookup fs "id", jLookup fs "customerId", jLookup fs "amount",
          (jLookup fs "type").bind decodeTxType, jLookup fs "description",
          jLookup fs "timestamp" with
    | some (Json.str i), some (Json.str cid), some (Json.num a),
      some ty, some (Json.str d), some (Json.num ts) =>
      if ts.den = 1 then
        match jLookup fs "items" with
        | none => some { id := i, customerId := cid, amount := a, type := ty,
                         description := d, timestamp := ts.num, items := none }
        | some (Json.arr xs) =>
          (decodeList decodeTxItem xs).map fun its =>
            { id := i, customerId := cid, amount := a, type := ty,
              description := d, timestamp := ts.num, items := some its }
        | some _ => none
      else none
    | _, _, _, _, _, _ => none
  | _ => none

/-- JSON encoding of the whole KiranaState, the shape JSON.stringify writes
under the storage key. -/
def encodeState (s : KiranaState) : Json :=
  Json.obj [("products", Json.arr (s.products.map encodeProduct)),
            ("customers", Json.arr (s.customers.map encodeCustomer)),
            ("transactions", Json.arr (s.transactions.map encodeTransaction))]

/-- JSON decoding of a KiranaState: the loaded JS value read back through
the KiranaState interface. -/
def decodeState (j : Json) : Option KiranaState :=
  match j with
  | Json.obj fs =>
    match jLookup fs "products", jLookup fs "customers", jLookup fs "transactions" with
    | some (Json.arr ps), some (Json.arr cs), some (Json.arr ts) =>
      match decodeList decodeProduct ps, decodeList decodeCustomer cs,
            decodeList decodeTransaction ts with
      | some ps2, some cs2, some ts2 =>
        some { products := ps2, customers := cs2, transactions := ts2 }
      | _, _, _ => none
    | _, _, _ => none
  | _ => none

/-- Outcome of localStorage.getItem plus JSON.parse on the stored blob:
the parse throws, or yields a JSON value. -/
inductive ParseOutcome where
  | fail
  | ok (j : Json)

/-- save from src/pages/index.tsx line 46: JSON.stringify the state under
the fixed key; by the JSON text round-trip, the stored blob parses back to
the encoding of the state. -/
def save (s : KiranaState) : ParseOutcome :=
  ParseOutcome.ok (encodeState s)

/-- load from src/pages/index.tsx lines 32-42: absent content keeps the
seed state; a JSON.parse failure is caught and logged, keeping the seed
state; a successful parse installs the parsed JS value as the state,
with no shape validation. The result is the in-memory JS state value. -/
def load (now : Int) (saved : Option ParseOutcome) : Json :=
  match saved with
  | none => encodeState (INITIAL_STATE now)
  | some ParseOutcome.fail => encodeState (INITIAL_STATE now)
  | some (ParseOutcome.ok j) => j

/-- Outcome of response.text plus JSON.parse inside extractItemsFromImage:
the text is absent or empty, the text fails JSON.parse, or it parses. -/
inductive ResponseText where
  | noText
  | malformed
  | wellFormed (j : Json)

/-- Outcome of the generateContent API call in
src/services/geminiService.ts: the awaited call throws (network error), or
returns a response whose text behaves as described. -/
inductive ApiOutcome where
  | networkFailure
  | success (text : ResponseText)

/-- The error that escapes extractItemsFromImage: the catch block logs and
rethrows the caught error. -/
inductive GeminiError where
  | thrown
deriving DecidableEq, Repr

/-- extractItemsFromImage from src/services/geminiService.ts lines 6-46:
an empty or absent response text returns the empty array; a successful
parse returns the parsed JSON unvalidated; a network error or a JSON.parse
failure is caught, logged and rethrown to the caller. -/
def extractItemsFromImage (outcome : ApiOutcome) : Except GeminiError Json :=
  match outcome with
  | ApiOutcome.networkFailure => Except.error GeminiError.thrown
  | ApiOutcome.success ResponseText.noText => Except.ok (Json.arr [])
  | ApiOutcome.success ResponseText.malformed => Except.error GeminiError.thrown
  | ApiOutcome.success (ResponseText.wellFormed j) => Except.ok j

/-- Decoding inverts encoding pointwise, lifted through lists. -/
theorem decodeList_map_encode {α : Type} (enc : α → Json) (dec : Json → Option α)
    (h : ∀ x, dec (enc x) = some x) (xs : List α) :
    decodeList dec (xs.map enc) = some xs := by
  induction xs with
  | nil => rfl
  | cons x xs ih => simp [decodeList, h, ih]

/-- Decoding a Product inverts its encoding. -/
theorem decodeProduct_encodeProduct (p : Product) :
    decodeProduct (encodeProduct p) = some p := by
  obtain ⟨i, n, pr, c, st⟩ := p
  cases st <;> rfl

/-- Decoding a Customer inverts its encoding. -/
theorem decodeCustomer_encodeCustomer (c : Customer) :
    decodeCustomer (encodeCustomer c) = some c := by
  obtain ⟨i, n, ph, b, u⟩ := c
  simp [encodeCustomer, decodeCustomer, jLookup]

/-- Decoding a TransactionType inverts its encoding. -/
theorem decodeTxType_encodeTxType (t : TransactionType) :
    decodeTxType (encodeTxType t) = some t := by
  cases t <;> rfl

/-- Decoding a line item inverts its encoding. -/
theorem decodeTxItem_encodeTxItem (it : TransactionItem) :
    decodeTxItem (encodeTxItem it) = some it := by
  obtain ⟨pid, n, q, pr⟩ := it
  rfl

/-- Decoding a Transaction inverts its encoding. -/
theorem decodeTransaction_encodeTransaction (t : Transaction) :
    decodeTransaction (encodeTransaction t) = some t := by
  obtain ⟨i, cid, a, ty, d, ts, its⟩ := t
  cases its with
  | none =>
    cases ty <;> simp [encodeTransaction, decodeTransaction, encodeTxType, decodeTxType, jLookup]
  | some xs =>
    cases ty <;>
      simp [encodeTransaction, decodeTransaction, encodeTxType, decodeTxType, jLookup,
        decodeList_map_encode encodeTxItem decodeTxItem decodeTxItem_encodeTxItem]

/-- Decoding a KiranaState inverts its encoding. -/
theorem decodeState_encodeState (s : KiranaState) :
    decodeState (encodeState s) = some s := by
  obtain ⟨ps, cs, ts⟩ := s
  simp [encodeState, decodeState, jLookup,
    decodeList_map_encode encodeProduct decodeProduct decodeProduct_encodeProduct,
    decodeList_map_encode encodeCustomer decodeCustomer decodeCustomer_encodeCustomer,
    decodeList_map_encode encodeTransaction decodeTransaction decodeTransaction_encodeTransaction]

/-- C6: for every well-formed Ledger State, save followed by load yields a
state deep-equal to the original: the loaded JS value is exactly the
serialised state, and reading it back through the KiranaState interface
recovers every product, customer and transaction. -/
theorem save_load_roundtrip (s : KiranaState) (now : Int) :
    load now (some (save s)) = encodeState s ∧ decodeState (encodeState s) = some s :=
  ⟨rfl, decodeState_encodeState s⟩

/-- C7 counterexample: the stored content 5 parses as JSON but fails to
deserialize as the Ledger State shape, yet load installs it as the state
instead of returning the seed state. -/
theorem load_accepts_malshaped_content :
    decodeState (Json.num 5) = none
    ∧ load 0 (some (ParseOutcome.ok (Json.num 5))) = Json.num 5
    ∧ Json.num 5 ≠ encodeState (INITIAL_STATE 0) := by
  refine ⟨rfl, rfl, ?_⟩
  simp [encodeState, INITIAL_STATE]

/-- C7 amended: load on absent content or on content whose JSON parsing
fails returns the seed state and never throws (the parse failure is caught
and logged); content that parses as JSON is installed as the state
unchanged, even when it does not match the Ledger State shape. -/
theorem load_fallback_spec (now : Int) :
    load now none = encodeState (INITIAL_STATE now)
    ∧ load now (some ParseOutcome.fail) = encodeState (INITIAL_STATE now)
    ∧ ∀ j : Json, load now (some (ParseOutcome.ok j)) = j :=
  ⟨rfl, rfl, fun _ => rfl⟩

/-- C3 counterexample: on a network failure of the AI call,
extractItemsFromImage does not return an empty list; the catch block logs
and rethrows, so the error propagates past its boundary. -/
theorem extract_throws_on_network_failure :
    extractItemsFromImage ApiOutcome.networkFailure = Except.error GeminiError.thrown
    ∧ extractItemsFromImage ApiOutcome.networkFailure ≠ Except.ok (Json.arr []) := by
  refine ⟨rfl, ?_⟩
  simp [extractItemsFromImage]

/-- C3 amended: extractItemsFromImage returns an empty list only when the
model response carries no text; on a network error or on a response whose
text fails JSON parsing it rethrows the error to its caller, and a
response that parses is returned without schema validation. -/
theorem extract_error_contract :
    extractItemsFromImage ApiOutcome.networkFailure = Except.error GeminiError.thrown
    ∧ extractItemsFromImage (ApiOutcome.success ResponseText.noText) = Except.ok (Json.arr [])
    ∧ extractItemsFromImage (ApiOutcome.success ResponseText.malformed) = Except.error GeminiError.thrown
    ∧ ∀ j : Json, extractItemsFromImage (ApiOutcome.success (ResponseText.wellFormed j)) = Except.ok j :=
  ⟨rfl, rfl, rfl, fun _ => rfl⟩

/-- recordTransaction maps over the customer list, so the customer at any
index is the clamped update of the old one when its id matches, and the
old one otherwise. -/
theorem recordTransaction_customers_getElem (s : KiranaState) (tx : TxInput)
    (f : String) (n : Int) (i : Nat) :
    (recordTransaction s tx f n).customers[i]? = (s.customers[i]?).map fun c =>
      if c.id = tx.customerId then
        { c with outstandingBalance := max 0 (c.outstandingBalance + adjustment tx),
                 lastUpdated := n }
      else c := by
  simp [recordTransaction]

/-- C1: for every state and call, every customer whose id equals the
customerId argument ends with balance max(0, oldBalance + adjustment),
where the adjustment is +amount for a PURCHASE and -amount for a PAYMENT,
and that balance is never negative. -/
theorem recordTransaction_matching_balance (s : KiranaState) (tx : TxInput)
    (f : String) (n : Int) (i : Nat) (c : Customer)
    (hc : s.customers[i]? = some c) (hid : c.id = tx.customerId) :
    (recordTransaction s tx f n).customers[i]? =
      some { c with outstandingBalance := max 0 (c.outstandingBalance + adjustment tx),
                    lastUpdated := n }
    ∧ (0 : Rat) ≤ max 0 (c.outstandingBalance + adjustment tx) := by
  refine ⟨?_, le_max_left _ _⟩
  rw [recordTransaction_customers_getElem, hc]
  simp [hid]

/-- C1 witness: a payment of 500 against a balance of 300 yields balance
0, not -200. -/
theorem recordTransaction_matching_balance_witness :
    (recordTransaction
        { products := [],
          customers := [{ id := "c9", name := "Asha", phone := "99",
                          outstandingBalance := 300, lastUpdated := 0 }],
          transactions := [] }
        { customerId := "c9", amount := 500, type := TransactionType.PAYMENT,
          description := "pay" }
        "t1" 7).customers[0]? =
      some { id := "c9", name := "Asha", phone := "99",
             outstandingBalance := 0, lastUpdated := 7 } := by
  have h := (recordTransaction_matching_balance
    { products := [],
      customers := [{ id := "c9", name := "Asha", phone := "99",
                      outstandingBalance := 300, lastUpdated := 0 }],
      transactions := [] }
    { customerId := "c9", amount := 500, type := TransactionType.PAYMENT,
      description := "pay" }
    "t1" 7 0
    { id := "c9", name := "Asha", phone := "99",
      outstandingBalance := 300, lastUpdated := 0 }
    rfl rfl).1
  rw [h]
  simp [adjustment]
  norm_num

/-- The clamped fold stays non-negative as soon as its seed is. -/
theorem balanceClampFold_nonneg (b : Rat) (adjs : List Rat) (hb : 0 ≤ b) :
    0 ≤ balanceClampFold b adjs := by
  induction adjs generalizing b with
  | nil => exact hb
  | cons a as ih => exact ih _ (le_max_left _ _)

/-- C2 amended: across any sequence of recordTransaction calls directed at
one fixed customer, that customer's balance is the left fold of
b, a to max(0, b + a) of the adjustments over the starting balance (the
clamp applies at each step, not once to the sum), and it is non-negative
after at least one call. -/
theorem applyCalls_balance (s : KiranaState) (cid : String)
    (calls : List (TxInput × String × Int))
    (hdir : ∀ k ∈ calls, (k.1).customerId = cid)
    (i : Nat) (c : Customer)
    (hc : s.customers[i]? = some c) (hid : c.id = cid) :
    ∃ c2 : Customer,
      (applyCalls s calls).customers[i]? = some c2
      ∧ c2.id = cid
      ∧ c2.outstandingBalance
          = balanceClampFold c.outstandingBalance (calls.map fun k => adjustment k.1)
      ∧ (calls ≠ [] → 0 ≤ c2.outstandingBalance) := by
  induction calls generalizing s c with
  | nil => exact ⟨c, hc, hid, rfl, by simp⟩
  | cons k ks ih =>
    have hk : (k.1).customerId = cid := hdir k (by simp)
    have hc1 : (recordTransaction s k.1 k.2.1 k.2.2).customers[i]? =
        some { c with outstandingBalance := max 0 (c.outstandingBalance + adjustment k.1),
                      lastUpdated := k.2.2 } := by
      rw [recordTransaction_customers_getElem, hc]
      simp [hid.trans hk.symm]
    obtain ⟨c2, hgot, hcid, hbal, _⟩ :=
      ih (recordTransaction s k.1 k.2.1 k.2.2)
        (fun k2 hk2 => hdir k2 (List.mem_cons_of_mem _ hk2))
        { c with outstandingBalance := max 0 (c.outstandingBalance + adjustment k.1),
                 lastUpdated := k.2.2 }
        hc1 hid
    refine ⟨c2, hgot, hcid, ?_, fun _ => ?_⟩
    · simpa [balanceClampFold] using hbal
    · rw [hbal]
      exact balanceClampFold_nonneg _ _ (le_max_left _ _)

/-- The concrete customer, state and call sequence refuting the sum-based
balance formula. -/
def c2cexState : KiranaState :=
  { products := [],
    customers := [{ id := "c1", name := "Neha", phone := "90",
                    outstandingBalance := 0, lastUpdated := 0 }],
    transactions := [] }

/-- Purchase 100, pay 300, purchase 50: the middle payment clamps. -/
def c2cexCalls : List (TxInput × String × Int) :=
  [({ customerId := "c1", amount := 100, type := TransactionType.PURCHASE,
      description := "a" }, "t1", 1),
   ({ customerId := "c1", amount := 300, type := TransactionType.PAYMENT,
      description := "b" }, "t2", 2),
   ({ customerId := "c1", amount := 50, type := TransactionType.PURCHASE,
      description := "d" }, "t3", 3)]

/-- C2 counterexample: after purchase 100, payment 300, purchase 50 on a
customer starting at balance 0, the code leaves balance 50, while
max(0, sum of adjustments) = max(0, -150) = 0; the claimed formula fails
as soon as an intermediate clamp fires. -/
theorem applyCalls_balance_not_sum :
    ((applyCalls c2cexState c2cexCalls).customers.head?).map Customer.outstandingBalance
      = some 50
    ∧ max 0 ((c2cexCalls.map fun k => adjustment k.1).sum) = 0
    ∧ (50 : Rat) ≠ 0 := by
  refine ⟨?_, ?_, by norm_num⟩
  · simp [c2cexState, c2cexCalls, applyCalls, recordTransaction, adjustment, mkTx]
    norm_num
  · simp [c2cexCalls, adjustment]
    norm_num

/-- C2 witness: the amended fold formula evaluated on the same concrete
three-call sequence. -/
theorem applyCalls_balance_witness :
    ∃ c2 : Customer,
      (applyCalls c2cexState c2cexCalls).customers[0]? = some c2
      ∧ c2.id = "c1"
      ∧ c2.outstandingBalance
          = balanceClampFold 0 (c2cexCalls.map fun k => adjustment k.1)
      ∧ (c2cexCalls ≠ [] → 0 ≤ c2.outstandingBalance) :=
  applyCalls_balance c2cexState "c1" c2cexCalls (by decide) 0
    { id := "c1", name := "Neha", phone := "90", outstandingBalance := 0, lastUpdated := 0 }
    rfl rfl

/-- C4: when no customer carries the target id, recordTransaction leaves
the customer list (and the product list) completely unchanged while the
new transaction is still prepended. -/
theorem recordTransaction_dangling_reference (s : KiranaState) (tx : TxInput)
    (f : String) (n : Int) (h : ∀ c ∈ s.customers, c.id ≠ tx.customerId) :
    (recordTransaction s tx f n).customers = s.customers
    ∧ (recordTransaction s tx f n).transactions = mkTx tx f n :: s.transactions
    ∧ (recordTransaction s tx f n).products = s.products := by
  refine ⟨?_, rfl, rfl⟩
  simp only [recordTransaction]
  have hmap : ∀ (l : List Customer), (∀ c ∈ l, c.id ≠ tx.customerId) →
      (l.map fun c =>
        if c.id = tx.customerId then
          { c with outstandingBalance := max 0 (c.outstandingBalance + adjustment tx),
                   lastUpdated := n }
        else c) = l := by
    intro l hl
    induction l with
    | nil => rfl
    | cons c cs ih =>
      simp only [List.map_cons, if_neg (hl c (by simp)), List.cons.injEq, true_and]
      exact ih fun c2 hc2 => hl c2 (List.mem_cons_of_mem _ hc2)
  exact hmap s.customers h

/-- C4 witness: recording against the unknown id x9 leaves the lone
customer untouched and still prepends the transaction. -/
theorem recordTransaction_dangling_reference_witness :
    (recordTransaction
        { products := [],
          customers := [{ id := "c1", name := "Ravi", phone := "98",
                          outstandingBalance := 40, lastUpdated := 0 }],
          transactions := [] }
        { customerId := "x9", amount := 10, type := TransactionType.PURCHASE,
          description := "ghost" }
        "t1" 5).customers =
      [{ id := "c1", name := "Ravi", phone := "98",
         outstandingBalance := 40, lastUpdated := 0 }]
    ∧ (recordTransaction
        { products := [],
          customers := [{ id := "c1", name := "Ravi", phone := "98",
                          outstandingBalance := 40, lastUpdated := 0 }],
          transactions := [] }
        { customerId := "x9", amount := 10, type := TransactionType.PURCHASE,
          description := "ghost" }
        "t1" 5).transactions =
      [mkTx { customerId := "x9", amount := 10, type := TransactionType.PURCHASE,
              description := "ghost" } "t1" 5] := by
  have h := recordTransaction_dangling_reference
    { products := [],
      customers := [{ id := "c1", name := "Ravi", phone := "98",
                      outstandingBalance := 40, lastUpdated := 0 }],
      transactions := [] }
    { customerId := "x9", amount := 10, type := TransactionType.PURCHASE,
      description := "ghost" }
    "t1" 5 (by decide)
  exact ⟨h.1, h.2.1⟩

/-- C5: a sequence of recordTransaction calls prepends each new
transaction, so the final list is the new transactions in reverse call
order followed by the old list, and for a non-empty sequence the first
element is the transaction of the most recent call. -/
theorem applyCalls_transactions_prepend (s : KiranaState)
    (calls : List (TxInput × String × Int)) :
    (applyCalls s calls).transactions
      = (calls.map fun k => mkTx k.1 k.2.1 k.2.2).reverse ++ s.transactions
    ∧ (calls ≠ [] →
        (applyCalls s calls).transactions.head?
          = calls.getLast?.map fun k => mkTx k.1 k.2.1 k.2.2) := by
  have hmain : ∀ (s : KiranaState),
      (applyCalls s calls).transactions
        = (calls.map fun k => mkTx k.1 k.2.1 k.2.2).reverse ++ s.transactions := by
    induction calls with
    | nil => intro s; simp [applyCalls]
    | cons k ks ih =>
      intro s
      have hstep : applyCalls s (k :: ks)
          = applyCalls (recordTransaction s k.1 k.2.1 k.2.2) ks := rfl
      rw [hstep, ih]
      simp [recordTransaction]
  refine ⟨hmain s, fun hne => ?_⟩
  rw [hmain s]
  have hrevne : (calls.map fun k => mkTx k.1 k.2.1 k.2.2).reverse ≠ [] := by
    simpa using hne
  rw [List.head?_append_of_ne_nil _ hrevne, List.head?_reverse, List.getLast?_map]

/-- C5 witness: after two calls, the head of the transactions list is the
transaction of the second call. -/
theorem applyCalls_transactions_prepend_witness :
    (applyCalls
        { products := [], customers := [], transactions := [] }
        [({ customerId := "c1", amount := 10, type := TransactionType.PURCHASE,
            description := "a" }, "t1", 1),
         ({ customerId := "c1", amount := 20, type := TransactionType.PAYMENT,
            description := "b" }, "t2", 2)]).transactions.head?
      = some (mkTx { customerId := "c1", amount := 20, type := TransactionType.PAYMENT,
                     description := "b" } "t2" 2) := by
  have h := (applyCalls_transactions_prepend
    { products := [], customers := [], transactions := [] }
    [({ customerId := "c1", amount := 10, type := TransactionType.PURCHASE,
        description := "a" }, "t1", 1),
     ({ customerId := "c1", amount := 20, type := TransactionType.PAYMENT,
        description := "b" }, "t2", 2)]).2 (by simp)
  rw [h]
  rfl

/-- C8: addProduct with a generated id that differs from every existing
product id (the intended behaviour of the random id generator) yields the
old list plus exactly one new entry carrying the given name, price and
category, with the fresh id, leaving every pre-existing product in place. -/
theorem addProduct_appends_fresh_product (s : KiranaState) (p : ProductInput)
    (f : String) (h : ∀ q ∈ s.products, q.id ≠ f) :
    (addProduct s p f).products = s.products ++ [mkProduct p f]
    ∧ (mkProduct p f).id = f
    ∧ (mkProduct p f).name = p.name
    ∧ (mkProduct p f).price = p.price
    ∧ (mkProduct p f).category = p.category
    ∧ (addProduct s p f).products.length = s.products.length + 1
    ∧ (∀ q ∈ s.products, q.id ≠ (mkProduct p f).id)
    ∧ (addProduct s p f).products.take s.products.length = s.products := by
  refine ⟨rfl, rfl, rfl, rfl, rfl, by simp [addProduct], h, ?_⟩
  simp [addProduct, List.take_left]

/-- C8 witness: adding Sugar 45 to a one-product catalog with the fresh id
p7 appends exactly that product. -/
theorem addProduct_appends_fresh_product_witness :
    (addProduct
        { products := [{ id := "1", name := "Rice", price := 120, category := "Grains" }],
          customers := [], transactions := [] }
        { name := "Sugar", price := 45, category := "Essentials" }
        "p7").products =
      [{ id := "1", name := "Rice", price := 120, category := "Grains" },
       mkProduct { name := "Sugar", price := 45, category := "Essentials" } "p7"] := by
  have h := (addProduct_appends_fresh_product
    { products := [{ id := "1", name := "Rice", price := 120, category := "Grains" }],
      customers := [], transactions := [] }
    { name := "Sugar", price := 45, category := "Essentials" }
    "p7" (by decide)).1
  exact h

/-- C9: the effect footprint of the three operations. recordTransaction
leaves products untouched, only prepends to transactions, preserves the
customer count, and for each customer preserves id, name and phone,
leaving non-matching customers entirely unchanged; addProduct and
addCustomer only append to their own list and touch nothing else. -/
theorem operations_frame (s : KiranaState) (tx : TxInput) (f : String) (n : Int)
    (p : ProductInput) (pf : String) (ci : CustomerInput) (cf : String) (cn : Int) :
    (recordTransaction s tx f n).products = s.products
    ∧ (recordTransaction s tx f n).transactions = mkTx tx f n :: s.transactions
    ∧ (recordTransaction s tx f n).customers.length = s.customers.length
    ∧ (∀ i : Nat, ∀ c : Customer, s.customers[i]? = some c →
        ∃ c2 : Customer, (recordTransaction s tx f n).customers[i]? = some c2
          ∧ c2.id = c.id ∧ c2.name = c.name ∧ c2.phone = c.phone
          ∧ (c.id ≠ tx.customerId → c2 = c))
    ∧ (addProduct s p pf).customers = s.customers
    ∧ (addProduct s p pf).transactions = s.transactions
    ∧ (addProduct s p pf).products = s.products ++ [mkProduct p pf]
    ∧ (addCustomer s ci cf cn).products = s.products
    ∧ (addCustomer s ci cf cn).transactions = s.transactions
    ∧ (addCustomer s ci cf cn).customers = s.customers ++ [mkCustomer ci cf cn] := by
  refine ⟨rfl, rfl, by simp [recordTransaction], ?_, rfl, rfl, rfl, rfl, rfl, rfl⟩
  intro i c hc
  rw [recordTransaction_customers_getElem, hc]
  by_cases hid : c.id = tx.customerId
  · refine ⟨{ c with
                outstandingBalance := max 0 (c.outstandingBalance + adjustment tx),
                lastUpdated := n },
      ?_, rfl, rfl, rfl, fun hne => absurd hid hne⟩
    simp [hid]
  · exact ⟨c, by simp [hid], rfl, rfl, rfl, fun _ => rfl⟩

/-- C9 witness: the frame theorem applied to a concrete two-customer
state; the customer whose id differs from the target is returned
unchanged. -/
theorem operations_frame_witness :
    ∃ c2 : Customer,
      (recordTransaction
          { products := [],
            customers := [{ id := "c1", name := "Ravi", phone := "98",
                            outstandingBalance := 40, lastUpdated := 0 },
                          { id := "c2", name := "Meena", phone := "97",
                            outstandingBalance := 15, lastUpdated := 0 }],
            transactions := [] }
          { customerId := "c1", amount := 10, type := TransactionType.PURCHASE,
            description := "x" }
          "t1" 5).customers[1]? = some c2
      ∧ c2.id = "c2" ∧ c2.name = "Meena" ∧ c2.phone = "97"
      ∧ ("c2" ≠ "c1" → c2 = { id := "c2", name := "Meena", phone := "97",
                              outstandingBalance := 15, lastUpdated := 0 }) := by
  have h := (operations_frame
    { products := [],
      customers := [{ id := "c1", name := "Ravi", phone := "98",
                      outstandingBalance := 40, lastUpdated := 0 },
                    { id := "c2", name := "Meena", phone := "97",
                      outstandingBalance := 15, lastUpdated := 0 }],
      transactions := [] }
    { customerId := "c1", amount := 10, type := TransactionType.PURCHASE,
      description := "x" }
    "t1" 5
    { name := "q", price := 1, category := "c" } "p0"
    { name := "r", phone := "0" } "c0" 0).2.2.2.1
  obtain ⟨c2, hg, hi, hn, hp, hu⟩ := h 1
    { id := "c2", name := "Meena", phone := "97", outstandingBalance := 15, lastUpdated := 0 }
    rfl
  exact ⟨c2, hg, hi, hn, hp, hu⟩

/-- The concrete state showing that a negative amount is accepted: one
customer with balance 100. -/
def c10negState : KiranaState :=
  { products := [],
    customers := [{ id := "c1", name := "Ira", phone := "91",
                    outstandingBalance := 100, lastUpdated := 0 }],
    transactions := [] }

/-- A PURCHASE carrying the negative amount -30. -/
def c10negTx : TxInput :=
  { customerId := "c1", amount := -30, type := TransactionType.PURCHASE,
    description := "negative" }

/-- C10: recordTransaction imposes no guard on the amount: for every
amount the transaction is recorded and the clamp formula applied
unchanged, and concretely a PURCHASE of amount -30 strictly decreases a
matching balance of 100 to 70. -/
theorem recordTransaction_no_amount_guard (s : KiranaState) (tx : TxInput)
    (f : String) (n : Int) :
    (recordTransaction s tx f n).transactions = mkTx tx f n :: s.transactions
    ∧ (∀ i : Nat, ∀ c : Customer, s.customers[i]? = some c → c.id = tx.customerId →
        (recordTransaction s tx f n).customers[i]? =
          some { c with outstandingBalance := max 0 (c.outstandingBalance + adjustment tx),
                        lastUpdated := n })
    ∧ ((recordTransaction c10negState c10negTx "t1" 3).customers.head?).map
        Customer.outstandingBalance = some 70
    ∧ (70 : Rat) < 100
    ∧ (c10negState.customers.head?).map Customer.outstandingBalance = some 100
    ∧ c10negTx.type = TransactionType.PURCHASE
    ∧ c10negTx.amount = -30 := by
  refine ⟨rfl, ?_, ?_, by norm_num, rfl, rfl, rfl⟩
  · intro i c hc hid
    rw [recordTransaction_customers_getElem, hc]
    simp [hid]
  · simp [c10negState, c10negTx, recordTransaction, adjustment]
    norm_num

/-- C10 witness: the unconditional clamp formula applied to the concrete
negative-amount purchase. -/
theorem recordTransaction_no_amount_guard_witness :
    (recordTransaction c10negState c10negTx "t1" 3).customers[0]? =
      some { id := "c1", name := "Ira", phone := "91",
             outstandingBalance := max 0 (100 + adjustment c10negTx), lastUpdated := 3 } := by
  have h := (recordTransaction_no_amount_guard c10negState c10negTx "t1" 3).2.1 0
    { id := "c1", name := "Ira", phone := "91", outstandingBalance := 100, lastUpdated := 0 }
    rfl rfl
  exact h

end Kirana
